import Mathlib

/-!
Formal model of the optiland core: the pupil-sampling distribution engine
(`optiland/distribution.py`) and the design-variable abstraction
(`optiland/variable.py`).

Conventions of the embedding:
* NumPy float arrays are modelled as `List ℚ` with exact rational arithmetic;
  the decimal literals of the source tables are carried exactly.
* Angles are carried as fractions of a full turn: a stored value `t : ℚ`
  stands for the angle `2·π·t`.  Cosine and sine are abstract parameters
  `c s : ℚ → K` (mapping a turn fraction to the cosine/sine of the angle),
  so that trigonometric identities enter only as explicit hypotheses.
* A Python `raise` is an `Except.error` carrying the source's message;
  a fallible indexing access is an `Option`.
-/

namespace Optiland

/-- Model of `numpy.linspace(a, b, n)`: `n` evenly spaced values from `a`
to `b`, endpoints included (`n = 1` gives `[a]`, `n = 0` gives `[]`). -/
def linspace (a b : ℚ) (n : ℕ) : List ℚ :=
  if n = 0 then []
  else if n = 1 then [a]
  else (List.range n).map (fun (i : ℕ) => a + (b - a) * i / ((n : ℚ) - 1))

/-- `CrossDistribution.generate_points`: x-coordinates, the concatenation of
`np.zeros(num_points)` (vertical arm) and `np.linspace(-1, 1, num_points)`
(horizontal arm). -/
def cross_x (num_points : ℕ) : List ℚ :=
  List.replicate num_points 0 ++ linspace (-1) 1 num_points

/-- `CrossDistribution.generate_points`: y-coordinates, the concatenation of
`np.linspace(-1, 1, num_points)` (vertical arm) and `np.zeros(num_points)`
(horizontal arm). -/
def cross_y (num_points : ℕ) : List ℚ :=
  linspace (-1) 1 num_points ++ List.replicate num_points 0

/-- `UniformDistribution.generate_points`: the `num_points × num_points`
grid `np.meshgrid(x, x)` with `x = np.linspace(-1, 1, num_points)`,
flattened row-major and masked to `x² + y² ≤ 1`.  Each pair is
`(X[i,j], Y[i,j]) = (x[j], x[i])`. -/
def uniform_points (num_points : ℕ) : List (ℚ × ℚ) :=
  let xs := linspace (-1) 1 num_points
  (xs.flatMap (fun yi => xs.map (fun xj => (xj, yi)))).filter
    (fun p => decide (p.1 ^ 2 + p.2 ^ 2 ≤ 1))

/-- The `self.x` array of `UniformDistribution` after `generate_points`. -/
def uniform_x (num_points : ℕ) : List ℚ := (uniform_points num_points).map Prod.fst

/-- The `self.y` array of `UniformDistribution` after `generate_points`. -/
def uniform_y (num_points : ℕ) : List ℚ := (uniform_points num_points).map Prod.snd

/-- `HexagonalDistribution.generate_points` in polar form: the center point
`(0, 0)` followed, for `i = 0, …, num_rings - 1`, by the ring of
`6·(i+1)` points at radius `r[i+1]` with `r = np.linspace(0, 1, num_rings+1)`
and turn fractions `np.linspace(0, 2π, 6(i+1)+1)[:-1] / 2π`.
Each pair is `(radius, turn fraction)`. -/
def hexagonal_points (num_rings : ℕ) : List (ℚ × ℚ) :=
  (0, 0) :: (List.range num_rings).flatMap (fun i =>
    ((linspace 0 1 (6 * (i + 1) + 1)).dropLast).map
      (fun t => ((linspace 0 1 (num_rings + 1)).getD (i + 1) 0, t)))

/-- The `self.x` array of `HexagonalDistribution`: `radius * cos θ`, with the
cosine supplied as an abstract map `c` from turn fraction to cosine value. -/
def hexagonal_x {K : Type} [Field K] (c : ℚ → K) (num_rings : ℕ) : List K :=
  (hexagonal_points num_rings).map (fun p => (p.1 : K) * c p.2)

/-- The `self.y` array of `HexagonalDistribution`: `radius * sin θ`, with the
sine supplied as an abstract map `s` from turn fraction to sine value. -/
def hexagonal_y {K : Type} [Field K] (s : ℚ → K) (num_rings : ℕ) : List K :=
  (hexagonal_points num_rings).map (fun p => (p.1 : K) * s p.2)

/-- The hexagonal layout as the specification words it: a center point at
radius 0, then for each 1-indexed ring `i+1 = 1..num_rings` exactly `6·(i+1)`
equally spaced angular samples (turn fractions `j/(6(i+1))`, `j < 6(i+1)`)
at radius `(i+1)/num_rings`.  Stated independently of `hexagonal_points`
for comparison. -/
def hexPolarSpec (num_rings : ℕ) : List (ℚ × ℚ) :=
  (0, 0) :: (List.range num_rings).flatMap (fun i =>
    (List.range (6 * (i + 1))).map
      (fun (j : ℕ) => (((i : ℚ) + 1) / num_rings, (j : ℚ) / (6 * ((i : ℚ) + 1)))))

/-- `GaussianQuadrature._get_radius`: the fixed per-ring-count radius table;
ring counts outside 1–6 raise `ValueError` (the spec's
`InvalidConfiguration`). -/
def get_radius (num_rings : ℕ) : Except String (List ℚ) :=
  match num_rings with
  | 1 => .ok [0.70711]
  | 2 => .ok [0.45970, 0.88807]
  | 3 => .ok [0.33571, 0.70711, 0.94196]
  | 4 => .ok [0.26350, 0.57446, 0.81853, 0.96466]
  | 5 => .ok [0.21659, 0.48038, 0.70711, 0.87706, 0.97626]
  | 6 => .ok [0.18375, 0.41158, 0.61700, 0.78696, 0.91138, 0.98300]
  | _ => .error ("Gaussian quadrature must have between 1 and 6 rings.")

/-- `GaussianQuadrature.get_weights`: look up the fixed per-ring-count weight
table, then scale every weight by `6.0` when `is_symmetric` and by `2.0`
otherwise; ring counts outside 1–6 raise `ValueError` (the spec's
`InvalidConfiguration`). -/
def get_weights (is_symmetric : Bool) (num_rings : ℕ) : Except String (List ℚ) :=
  let weights_dict : ℕ → Option (List ℚ) := fun n =>
    match n with
    | 1 => some [0.5]
    | 2 => some [0.25, 0.25]
    | 3 => some [0.13889, 0.22222, 0.13889]
    | 4 => some [0.08696, 0.16304, 0.16304, 0.08696]
    | 5 => some [0.059231, 0.11966, 0.14222, 0.11966, 0.059231]
    | 6 => some [0.04283, 0.09019, 0.11698, 0.11698, 0.09019, 0.04283]
    | _ => none
  match weights_dict num_rings with
  | none => .error ("Gaussian quadrature must have between 1 and 6 rings.")
  | some weights => .ok (weights.map (fun w => w * (if is_symmetric then 6.0 else 2.0)))

/-- The fixed per-ring-count weight table named by the specification
(the raw `weights_dict` values before the symmetry scaling), stated
independently of `get_weights` for comparison. -/
def gaussianWeightTable (num_rings : ℕ) : Option (List ℚ) :=
  match num_rings with
  | 1 => some [0.5]
  | 2 => some [0.25, 0.25]
  | 3 => some [0.13889, 0.22222, 0.13889]
  | 4 => some [0.08696, 0.16304, 0.16304, 0.08696]
  | 5 => some [0.059231, 0.11966, 0.14222, 0.11966, 0.059231]
  | 6 => some [0.04283, 0.09019, 0.11698, 0.11698, 0.09019, 0.04283]
  | _ => none

/-- The result of `create_distribution`: which distribution class is
instantiated (with its constructor argument, for the line variants).
The instance holds no points yet; `generate_points` is a separate call. -/
inductive DistributionTag where
  | lineX (positive_only : Bool)
  | lineY (positive_only : Bool)
  | random
  | uniform
  | hexapolar
  | cross
  | ring

/-- `create_distribution`: map the fixed string keys to a freshly constructed
distribution instance; an unrecognized key raises `ValueError` (the spec's
`InvalidConfiguration`) before any point generation is attempted. -/
def create_distribution (distribution_type : String) : Except String DistributionTag :=
  let distribution_classes : List (String × DistributionTag) :=
    [("line_x", .lineX false),
     ("line_y", .lineY false),
     ("positive_line_x", .lineX true),
     ("positive_line_y", .lineY true),
     ("random", .random),
     ("uniform", .uniform),
     ("hexapolar", .hexapolar),
     ("cross", .cross),
     ("ring", .ring)]
  match distribution_classes.lookup distribution_type with
  | some d => .ok d
  | none => .error ("Invalid distribution type.")

/-- Modelled from the spec: `np.random.default_rng(seed)` — the seeded
pseudo-random generator is NumPy code, external to this repository; the spec
describes it as a reproducible source of draws uniform on `[0, 1)` fully
determined by the seed.  It is modelled as a deterministic seed-keyed stream
of rationals in `[0, 1)`. -/
def default_rng (seed : ℕ) : ℕ → ℚ :=
  fun i => (((seed + 1) * (i + 1) * 2654435761 % 4294967296 : ℕ) : ℚ) / 4294967296

/-- `RandomDistribution`: owns a private generator created from the seed at
construction; `pos` is the number of draws already consumed. -/
structure RandomDistribution where
  rng : ℕ → ℚ
  pos : ℕ

/-- `RandomDistribution.__init__(seed)`: store `np.random.default_rng(seed)`. -/
def RandomDistribution.init (seed : ℕ) : RandomDistribution :=
  ⟨default_rng seed, 0⟩

/-- `RandomDistribution.generate_points` in polar form: draw `num_points`
values `r` uniform on `[0,1)`, then `num_points` values `θ` uniform on
`[0, 2π)`; the i-th point is `(r_i, θ_i/2π)`, i.e. the angle is kept as a
turn fraction. -/
def RandomDistribution.generate_polar (d : RandomDistribution) (num_points : ℕ) :
    List (ℚ × ℚ) :=
  (List.range num_points).map
    (fun i => (d.rng (d.pos + i), d.rng (d.pos + num_points + i)))

/-- The `self.x` array of `RandomDistribution`: `√r · cos θ`, with the square
root and cosine supplied as abstract maps `sq` and `c`. -/
def random_x {K : Type} [Field K] (sq c : ℚ → K) (d : RandomDistribution)
    (num_points : ℕ) : List K :=
  (d.generate_polar num_points).map (fun p => sq p.1 * c p.2)

/-- The `self.y` array of `RandomDistribution`: `√r · sin θ`, with the square
root and sine supplied as abstract maps `sq` and `s`. -/
def random_y {K : Type} [Field K] (sq s : ℚ → K) (d : RandomDistribution)
    (num_points : ℕ) : List K :=
  (d.generate_polar num_points).map (fun p => sq p.1 * s p.2)

/-- The collaborator contract of the external optical-system model, at its
interface boundary: mutators (`set_*`) and accessors (`surface_group.radii`,
`surface_group.conic`, `surface_group.get_thickness`, `n(wavelength)`,
`surface_group.surfaces[i].geometry.c`) over an abstract state type `σ`.
The variable layer can touch the optic only through these operations.
Accessors return `Option`/lists because Python indexing may fail. -/
structure OpticOps (σ : Type) where
  set_radius : σ → ℚ → ℕ → σ
  set_conic : σ → ℚ → ℕ → σ
  set_thickness : σ → ℚ → ℕ → σ
  set_index : σ → ℚ → ℕ → σ
  set_asphere_coeff : σ → ℚ → ℕ → ℕ → σ
  radii : σ → ℕ → Option ℚ
  conic : σ → ℕ → Option ℚ
  get_thickness : σ → ℕ → Option (List ℚ)
  n : σ → ℚ → Option (List ℚ)
  geometry_c : σ → ℕ → ℕ → Option ℚ

/-- The five `VariableBehavior` subclasses of `variable.py`, each holding the
addressing parameters it was constructed with. -/
inductive VariableBehavior where
  | RadiusVariable (surface_number : ℕ)
  | ConicVariable (surface_number : ℕ)
  | ThicknessVariable (surface_number : ℕ)
  | IndexVariable (surface_number : ℕ) (wavelength : ℚ)
  | AsphereCoeffVariable (surface_number : ℕ) (coeff_number : ℕ)

/-- `VariableBehavior.get_value` of each subclass: read the addressed quantity
through the optic's accessors (`radii[sn]`, `conic[sn]`,
`get_thickness(sn)[0]`, `n(wavelength)[sn]`,
`surfaces[sn].geometry.c[cn]`). -/
def VariableBehavior.get_value {σ : Type} (ops : OpticOps σ) (st : σ) :
    VariableBehavior → Option ℚ
  | .RadiusVariable surface_number => ops.radii st surface_number
  | .ConicVariable surface_number => ops.conic st surface_number
  | .ThicknessVariable surface_number =>
      (ops.get_thickness st surface_number).bind (fun t => t.head?)
  | .IndexVariable surface_number wavelength =>
      (ops.n st wavelength).bind (fun l => l[surface_number]?)
  | .AsphereCoeffVariable surface_number coeff_number =>
      ops.geometry_c st surface_number coeff_number

/-- `VariableBehavior.update_value` of each subclass: write through the
optic's own mutator methods, never directly into its arrays. -/
def VariableBehavior.update_value {σ : Type} (ops : OpticOps σ) (st : σ)
    (new_value : ℚ) : VariableBehavior → σ
  | .RadiusVariable surface_number => ops.set_radius st new_value surface_number
  | .ConicVariable surface_number => ops.set_conic st new_value surface_number
  | .ThicknessVariable surface_number => ops.set_thickness st new_value surface_number
  | .IndexVariable surface_number _ => ops.set_index st new_value surface_number
  | .AsphereCoeffVariable surface_number coeff_number =>
      ops.set_asphere_coeff st new_value surface_number coeff_number

/-- The keyword arguments passed to `Variable(...)`: the three whitelisted
keys (each present or absent), plus the names of any unrecognized extra
keywords. -/
structure Kwargs where
  surface_number : Option ℕ
  coeff_number : Option ℕ
  wavelength : Option ℚ
  extra : List String

/-- `Variable.allowed_attributes`: the fixed whitelist of keyword names. -/
def allowed_attributes : List String :=
  ["surface_number", "coeff_number", "wavelength"]

/-- `Variable._get_variable_behavior`: dispatch on `type_name` through the
fixed type table.  A recognized type instantiates its behavior class, which
raises `TypeError` (modelled as `Except.error`) when a required constructor
argument is missing from the kwargs; an unrecognized type yields `none`
without raising. -/
def get_variable_behavior (type_name : String) (kwargs : Kwargs) :
    Except String (Option VariableBehavior) :=
  if type_name = "radius" then
    match kwargs.surface_number with
    | some sn => .ok (some (.RadiusVariable sn))
    | none => .error ("TypeError: missing required argument")
  else if type_name = "conic" then
    match kwargs.surface_number with
    | some sn => .ok (some (.ConicVariable sn))
    | none => .error ("TypeError: missing required argument")
  else if type_name = "thickness" then
    match kwargs.surface_number with
    | some sn => .ok (some (.ThicknessVariable sn))
    | none => .error ("TypeError: missing required argument")
  else if type_name = "index" then
    match kwargs.surface_number, kwargs.wavelength with
    | some sn, some wl => .ok (some (.IndexVariable sn wl))
    | _, _ => .error ("TypeError: missing required argument")
  else if type_name = "asphere_coeff" then
    match kwargs.surface_number, kwargs.coeff_number with
    | some sn, some cn => .ok (some (.AsphereCoeffVariable sn cn))
    | _, _ => .error ("TypeError: missing required argument")
  else
    .ok none

/-- A constructed `Variable`: its `type` tag, advisory bounds, the stored
kwargs, the warning diagnostics printed for unrecognized keywords, and the
bound behavior (`none` when the type was unrecognized). -/
structure Variable where
  type : String
  min_val : Option ℚ
  max_val : Option ℚ
  kwargs : Kwargs
  warnings : List String
  variable_behavior : Option VariableBehavior

/-- `Variable.__init__`: store type and bounds, iterate the kwargs (each
whitelisted key is set as an attribute, each other key only produces a
printed warning and construction proceeds), then bind the behavior; a
`TypeError` from the behavior class propagates. -/
def Variable.make (type_name : String) (min_val max_val : Option ℚ)
    (kwargs : Kwargs) : Except String Variable :=
  match get_variable_behavior type_name kwargs with
  | .error e => .error e
  | .ok beh => .ok ⟨type_name, min_val, max_val, kwargs, kwargs.extra, beh⟩

/-- Errors raised by `Variable.value` / `Variable.update`:
`invalidVariableType` models the source's
`ValueError('Invalid variable type ...')` (the spec's `InvalidVariableType`);
`accessError` models a raw indexing fault from the optic's accessors. -/
inductive VarError where
  | invalidVariableType (type_name : String)
  | accessError

/-- `Variable.value`: delegate to the bound behavior's getter; when the
behavior is unset (unrecognized type), raise `InvalidVariableType` at this
call. -/
def Variable.value {σ : Type} (ops : OpticOps σ) (st : σ) (v : Variable) :
    Except VarError ℚ :=
  match v.variable_behavior with
  | some b =>
    match b.get_value ops st with
    | some q => .ok q
    | none => .error .accessError
  | none => .error (.invalidVariableType v.type)

/-- `Variable.update`: delegate to the bound behavior's setter (returning the
mutated optic state); when the behavior is unset, raise
`InvalidVariableType` at this call. -/
def Variable.update {σ : Type} (ops : OpticOps σ) (st : σ) (v : Variable)
    (new_value : ℚ) : Except VarError σ :=
  match v.variable_behavior with
  | some b => .ok (b.update_value ops st new_value)
  | none => .error (.invalidVariableType v.type)

/-- `Variable.bounds`: the pair `(min_val, max_val)` as supplied at
construction; no dispatch through the behavior. -/
def Variable.bounds (v : Variable) : Option ℚ × Option ℚ :=
  (v.min_val, v.max_val)

/-- A concrete optical-system stub used to instantiate the abstract
collaborator contract: the state maps surface indices to radii; its radius
setter stores exactly the given value at the given index and its radii
accessor reflects it.  All other operations are inert. -/
def funOptic : OpticOps (ℕ → ℚ) where
  set_radius := fun st val i => Function.update st i val
  set_conic := fun st _ _ => st
  set_thickness := fun st _ _ => st
  set_index := fun st _ _ => st
  set_asphere_coeff := fun st _ _ _ => st
  radii := fun st i => some (st i)
  conic := fun _ _ => none
  get_thickness := fun _ _ => none
  n := fun _ _ => none
  geometry_c := fun _ _ _ => none

end Optiland

namespace Optiland

theorem linspace_length (a b : ℚ) (n : ℕ) : (linspace a b n).length = n := by
  unfold linspace
  split
  · simp_all
  · split
    · simp_all
    · simp

/-- Claim C1: `GaussianQuadrature.get_weights(num_rings)` returns the fixed
per-ring-count table values scaled by 6 in symmetric mode and by 2 otherwise;
in particular `num_rings = 1` gives `[1.0]` non-symmetric and `[3.0]`
symmetric. -/
theorem gq_weights_scaled (is_symmetric : Bool) (num_rings : ℕ) :
    get_weights is_symmetric num_rings =
      (match gaussianWeightTable num_rings with
       | some w => .ok (w.map (fun v => v * (if is_symmetric then 6 else 2)))
       | none => .error ("Gaussian quadrature must have between 1 and 6 rings.")) ∧
    get_weights false 1 = .ok [1] ∧
    get_weights true 1 = .ok [3] := by
  refine ⟨?_, ?_, ?_⟩
  · rcases num_rings with _ | _ | _ | _ | _ | _ | _ | m <;>
      cases is_symmetric <;>
      simp [get_weights, gaussianWeightTable] <;> norm_num
  · simp [get_weights]; norm_num
  · simp [get_weights]; norm_num

/-- Claim C4: `create_distribution` raises `InvalidConfiguration` (the
source's `ValueError("Invalid distribution type.")`) for every key outside
the fixed set of nine keys, returning no instance (so before any point
generation); and both quadrature lookups raise `InvalidConfiguration` for
every ring count outside 1–6. -/
theorem create_distribution_invalid (distribution_type : String)
    (h : distribution_type ∉ ["line_x", "line_y", "positive_line_x", "positive_line_y",
      "random", "uniform", "hexapolar", "cross", "ring"]) :
    create_distribution distribution_type = .error ("Invalid distribution type.") ∧
    (∀ num_rings : ℕ, ¬(1 ≤ num_rings ∧ num_rings ≤ 6) →
      get_radius num_rings =
        .error ("Gaussian quadrature must have between 1 and 6 rings.") ∧
      ∀ is_symmetric : Bool,
        get_weights is_symmetric num_rings =
          .error ("Gaussian quadrature must have between 1 and 6 rings.")) := by
  constructor
  · simp only [List.mem_cons, List.not_mem_nil, or_false, not_or] at h
    obtain ⟨h1, h2, h3, h4, h5, h6, h7, h8, h9⟩ := h
    simp [create_distribution, List.lookup,
      beq_eq_false_iff_ne.mpr h1, beq_eq_false_iff_ne.mpr h2,
      beq_eq_false_iff_ne.mpr h3, beq_eq_false_iff_ne.mpr h4,
      beq_eq_false_iff_ne.mpr h5, beq_eq_false_iff_ne.mpr h6,
      beq_eq_false_iff_ne.mpr h7, beq_eq_false_iff_ne.mpr h8,
      beq_eq_false_iff_ne.mpr h9]
  · intro num_rings hn
    rcases num_rings with _ | _ | _ | _ | _ | _ | _ | m
    · exact ⟨rfl, fun _ => rfl⟩
    · exact absurd (by omega) hn
    · exact absurd (by omega) hn
    · exact absurd (by omega) hn
    · exact absurd (by omega) hn
    · exact absurd (by omega) hn
    · exact absurd (by omega) hn
    · exact ⟨rfl, fun _ => rfl⟩

theorem create_distribution_invalid_witness :
    create_distribution ("nonexistent") = .error ("Invalid distribution type.") ∧
    (∀ num_rings : ℕ, ¬(1 ≤ num_rings ∧ num_rings ≤ 6) →
      get_radius num_rings =
        .error ("Gaussian quadrature must have between 1 and 6 rings.") ∧
      ∀ is_symmetric : Bool,
        get_weights is_symmetric num_rings =
          .error ("Gaussian quadrature must have between 1 and 6 rings.")) :=
  create_distribution_invalid ("nonexistent") (by decide)

/-- Claim C7: `CrossDistribution.generate_points(n)` yields exactly `2n`
points: the first `n` form the vertical arm (`x ≡ 0`, `y` linearly spaced on
`[-1, 1]`) and the last `n` form the horizontal arm (`y ≡ 0`, `x` linearly
spaced on `[-1, 1]`). -/
theorem cross_points_structure (num_points : ℕ) :
    (cross_x num_points).length = 2 * num_points ∧
    (cross_y num_points).length = 2 * num_points ∧
    (cross_x num_points).take num_points = List.replicate num_points 0 ∧
    (cross_y num_points).take num_points = linspace (-1) 1 num_points ∧
    (cross_x num_points).drop num_points = linspace (-1) 1 num_points ∧
    (cross_y num_points).drop num_points = List.replicate num_points 0 := by
  have hr : (List.replicate num_points (0 : ℚ)).length = num_points :=
    List.length_replicate num_points 0
  have hl : (linspace (-1) 1 num_points).length = num_points :=
    linspace_length (-1) 1 num_points
  refine ⟨?_, ?_, ?_, ?_, ?_, ?_⟩
  · simp [cross_x, hr, hl]; omega
  · simp [cross_y, hr, hl]; omega
  · have t := List.take_left (List.replicate num_points (0 : ℚ))
      (linspace (-1) 1 num_points)
    rw [hr] at t
    exact t
  · have t := List.take_left (linspace (-1) 1 num_points)
      (List.replicate num_points (0 : ℚ))
    rw [hl] at t
    exact t
  · have t := List.drop_left (List.replicate num_points (0 : ℚ))
      (linspace (-1) 1 num_points)
    rw [hr] at t
    exact t
  · have t := List.drop_left (linspace (-1) 1 num_points)
      (List.replicate num_points (0 : ℚ))
    rw [hl] at t
    exact t

theorem linspace01_eq (n : ℕ) (hn : 1 ≤ n) :
    linspace 0 1 (n + 1) = (List.range (n + 1)).map (fun (k : ℕ) => (k : ℚ) / n) := by
  unfold linspace
  rw [if_neg (by omega), if_neg (by omega)]
  refine List.map_congr_left ?_
  intro k _
  push_cast
  field_simp

theorem mem_linspace01 (m : ℕ) (y : ℚ) (hy : y ∈ linspace 0 1 m) :
    0 ≤ y ∧ y ≤ 1 := by
  unfold linspace at hy
  split at hy
  · simp at hy
  split at hy
  · rw [List.mem_singleton] at hy
    subst hy
    norm_num
  · obtain ⟨i, hi, rfl⟩ := List.mem_map.mp hy
    rw [List.mem_range] at hi
    rename_i h0 h1
    have hm : 2 ≤ m := by omega
    have hden : (0 : ℚ) < (m : ℚ) - 1 := by
      have : (2 : ℚ) ≤ (m : ℚ) := by exact_mod_cast hm
      linarith
    constructor
    · positivity
    · rw [show (0 : ℚ) + (1 - 0) * i / ((m : ℚ) - 1) = i / ((m : ℚ) - 1) by ring]
      rw [div_le_one hden]
      have : (i : ℚ) ≤ (m : ℚ) - 1 := by
        have : i ≤ m - 1 := by omega
        have h2 : ((i : ℕ) : ℚ) ≤ ((m - 1 : ℕ) : ℚ) := by exact_mod_cast this
        rwa [Nat.cast_sub (by omega), Nat.cast_one] at h2
      linarith

theorem linspace01_getD_bounds (m j : ℕ) :
    0 ≤ (linspace 0 1 m).getD j 0 ∧ (linspace 0 1 m).getD j 0 ≤ 1 := by
  rcases hl : (linspace 0 1 m)[j]? with _ | y
  · simp [List.getD, hl]
  · have hy : y ∈ linspace 0 1 m := by
      rcases List.getElem?_eq_some.mp hl with ⟨hb, rfl⟩
      exact List.getElem_mem hb
    have := mem_linspace01 m y hy
    simpa [List.getD, hl] using this

theorem linspace01_getD_eq (n i : ℕ) (hn : 1 ≤ n) (hi : i < n + 1) :
    (linspace 0 1 (n + 1)).getD i 0 = (i : ℚ) / n := by
  rw [linspace01_eq n hn]
  have hb : i < ((List.range (n + 1)).map (fun (k : ℕ) => (k : ℚ) / n)).length := by
    simpa using hi
  rw [List.getD_eq_getElem?_getD, List.getElem?_eq_getElem hb]
  simp

theorem dropLast_linspace01 (n : ℕ) (hn : 1 ≤ n) :
    (linspace 0 1 (n + 1)).dropLast = (List.range n).map (fun (k : ℕ) => (k : ℚ) / n) := by
  rw [linspace01_eq n hn, List.range_succ, List.map_append, List.map_singleton,
    List.dropLast_concat]

theorem sum_six_times_succ (r : ℕ) :
    ((List.range r).map (fun i => 6 * (i + 1))).sum = 3 * r * (r + 1) := by
  induction r with
  | zero => rfl
  | succ r ih =>
    rw [List.range_succ, List.map_append, List.sum_append, ih]
    simp
    ring

/-- Claim C3: for `num_rings = r ≥ 1`, `HexagonalDistribution.generate_points`
produces exactly `1 + 3·r·(r+1)` points: one center point at radius 0, plus,
for each 1-indexed ring `i` in `1..r`, exactly `6·i` equally spaced angular
samples all at radius `i/r` (the points equal `hexPolarSpec`, the layout as
the specification words it). -/
theorem hexagonal_ring_structure (num_rings : ℕ) (h : 1 ≤ num_rings) :
    hexagonal_points num_rings = hexPolarSpec num_rings ∧
    (hexagonal_points num_rings).length = 1 + 3 * num_rings * (num_rings + 1) := by
  constructor
  · unfold hexagonal_points hexPolarSpec
    congr 1
    refine List.flatMap_congr ?_
    intro i hi
    rw [List.mem_range] at hi
    have h6 : 1 ≤ 6 * (i + 1) := by omega
    rw [dropLast_linspace01 (6 * (i + 1)) h6, List.map_map,
      linspace01_getD_eq num_rings (i + 1) h (by omega)]
    refine List.map_congr_left ?_
    intro k _
    simp [Function.comp]
  · unfold hexagonal_points
    rw [List.length_cons, List.length_flatMap]
    have : ((List.range num_rings).map
        (fun i => (((linspace 0 1 (6 * (i + 1) + 1)).dropLast).map
          (fun t => ((linspace 0 1 (num_rings + 1)).getD (i + 1) 0, t))).length)).sum
        = ((List.range num_rings).map (fun i => 6 * (i + 1))).sum := by
      congr 1
      refine List.map_congr_left ?_
      intro i _
      rw [List.length_map, List.length_dropLast, linspace_length]
      omega
    rw [Function.comp_def] at *
    rw [this, sum_six_times_succ]
    omega

theorem hexagonal_ring_structure_witness :
    hexagonal_points 2 = hexPolarSpec 2 ∧
    (hexagonal_points 2).length = 1 + 3 * 2 * (2 + 1) :=
  hexagonal_ring_structure 2 (by decide)

theorem hexagonal_radius_bounds (num_rings : ℕ) (q : ℚ × ℚ)
    (hq : q ∈ hexagonal_points num_rings) : 0 ≤ q.1 ∧ q.1 ≤ 1 := by
  unfold hexagonal_points at hq
  rcases List.mem_cons.mp hq with rfl | hq2
  · norm_num
  · obtain ⟨i, _, hq3⟩ := List.mem_flatMap.mp hq2
    obtain ⟨t, _, rfl⟩ := List.mem_map.mp hq3
    exact linspace01_getD_bounds (num_rings + 1) (i + 1)

/-- Claim C6: after `generate_points`, `UniformDistribution` and
`HexagonalDistribution` satisfy `len(x) = len(y)`, and every generated point
satisfies `x² + y² ≤ 1 + 1e-9` (for the hexagonal variant, under the
Pythagorean identity for the abstract cosine/sine maps). -/
theorem disk_bound_uniform_hexagonal {K : Type} [LinearOrderedField K]
    (c s : ℚ → K) (pythag : ∀ t : ℚ, c t ^ 2 + s t ^ 2 = 1)
    (num_points num_rings : ℕ) :
    ((uniform_x num_points).length = (uniform_y num_points).length ∧
      ∀ p ∈ (uniform_x num_points).zip (uniform_y num_points),
        p.1 ^ 2 + p.2 ^ 2 ≤ 1 + 1 / 1000000000) ∧
    ((hexagonal_x c num_rings).length = (hexagonal_y s num_rings).length ∧
      ∀ p ∈ (hexagonal_x c num_rings).zip (hexagonal_y s num_rings),
        p.1 ^ 2 + p.2 ^ 2 ≤ (1 : K) + 1 / 1000000000) := by
  refine ⟨⟨?_, ?_⟩, ?_, ?_⟩
  · simp [uniform_x, uniform_y]
  · intro p hp
    rw [uniform_x, uniform_y, List.zip_map'] at hp
    obtain ⟨q, hq, rfl⟩ := List.mem_map.mp hp
    simp only [uniform_points, List.mem_filter, decide_eq_true_eq] at hq
    have hle := hq.2
    simp only []
    linarith
  · simp [hexagonal_x, hexagonal_y]
  · intro p hp
    rw [hexagonal_x, hexagonal_y, List.zip_map'] at hp
    obtain ⟨q, hq, rfl⟩ := List.mem_map.mp hp
    obtain ⟨h0, h1⟩ := hexagonal_radius_bounds num_rings q hq
    have h0K : (0 : K) ≤ (q.1 : K) := by exact_mod_cast h0
    have h1K : ((q.1 : K) : K) ≤ 1 := by exact_mod_cast h1
    have hsq : ((q.1 : K) : K) ^ 2 ≤ 1 := by nlinarith
    show ((q.1 : K) * c q.2) ^ 2 + ((q.1 : K) * s q.2) ^ 2 ≤ (1 : K) + 1 / 1000000000
    calc ((q.1 : K) * c q.2) ^ 2 + ((q.1 : K) * s q.2) ^ 2
        = (q.1 : K) ^ 2 * (c q.2 ^ 2 + s q.2 ^ 2) := by ring
      _ = (q.1 : K) ^ 2 := by rw [pythag]; ring
      _ ≤ 1 := hsq
      _ ≤ (1 : K) + 1 / 1000000000 := by norm_num

theorem disk_bound_uniform_hexagonal_witness :
    ((uniform_x 4).length = (uniform_y 4).length ∧
      ∀ p ∈ (uniform_x 4).zip (uniform_y 4),
        p.1 ^ 2 + p.2 ^ 2 ≤ 1 + 1 / 1000000000) ∧
    ((hexagonal_x (fun _ => (1 : ℚ)) 3).length =
        (hexagonal_y (fun _ => (0 : ℚ)) 3).length ∧
      ∀ p ∈ (hexagonal_x (fun _ => (1 : ℚ)) 3).zip
          (hexagonal_y (fun _ => (0 : ℚ)) 3),
        p.1 ^ 2 + p.2 ^ 2 ≤ (1 : ℚ) + 1 / 1000000000) :=
  disk_bound_uniform_hexagonal (fun _ => (1 : ℚ)) (fun _ => (0 : ℚ))
    (fun t => by norm_num) 4 3

theorem make_ok_elim (type_name : String) (min_val max_val : Option ℚ)
    (kwargs : Kwargs) (v : Variable)
    (hv : Variable.make type_name min_val max_val kwargs = .ok v) :
    get_variable_behavior type_name kwargs = .ok v.variable_behavior ∧
    v.type = type_name ∧ v.min_val = min_val ∧ v.max_val = max_val ∧
    v.kwargs = kwargs ∧ v.warnings = kwargs.extra := by
  unfold Variable.make at hv
  rcases hg : get_variable_behavior type_name kwargs with e | beh
  · rw [hg] at hv
    exact absurd hv (by simp)
  · rw [hg] at hv
    injection hv with hv2
    subst hv2
    exact ⟨by simp [hg], rfl, rfl, rfl, rfl, rfl⟩

theorem gvb_recognized_isSome (type_name : String)
    (htn : type_name ∈ ["radius", "conic", "thickness", "index", "asphere_coeff"])
    (kwargs : Kwargs) (beh : Option VariableBehavior)
    (h : get_variable_behavior type_name kwargs = .ok beh) :
    ∃ b, beh = some b := by
  simp only [List.mem_cons, List.not_mem_nil, or_false] at htn
  rcases htn with rfl | rfl | rfl | rfl | rfl
  · rcases hks : kwargs.surface_number with _ | sn <;>
      simp [get_variable_behavior, hks] at h
    exact ⟨_, h.symm⟩
  · rcases hks : kwargs.surface_number with _ | sn <;>
      simp [get_variable_behavior, hks] at h
    exact ⟨_, h.symm⟩
  · rcases hks : kwargs.surface_number with _ | sn <;>
      simp [get_variable_behavior, hks] at h
    exact ⟨_, h.symm⟩
  · rcases hks : kwargs.surface_number with _ | sn <;>
      rcases hkw : kwargs.wavelength with _ | wl <;>
      simp [get_variable_behavior, hks, hkw] at h
    exact ⟨_, h.symm⟩
  · rcases hks : kwargs.surface_number with _ | sn <;>
      rcases hkc : kwargs.coeff_number with _ | cn <;>
      simp [get_variable_behavior, hks, hkc] at h
    exact ⟨_, h.symm⟩

theorem value_update_not_invalid {σ : Type} (ops : OpticOps σ) (st : σ)
    (v : Variable) (b : VariableBehavior) (hb : v.variable_behavior = some b)
    (nv : ℚ) (t : String) :
    v.value ops st ≠ .error (.invalidVariableType t) ∧
    v.update ops st nv ≠ .error (.invalidVariableType t) := by
  constructor
  · rcases hgv : b.get_value ops st with _ | q <;>
      simp [Variable.value, hb, hgv]
  · simp [Variable.update, hb]

/-- Claim C2: for every type name outside the recognized set, `Variable`
construction succeeds (the behavior is left unset) and reading `value` or
calling `update` on that variable raises `InvalidVariableType`; for a
recognized type name, neither accessor of a constructed variable raises on
that ground. -/
theorem variable_invalid_type_deferred (type_name : String)
    (h : type_name ∉ ["radius", "conic", "thickness", "index", "asphere_coeff"]) :
    (∀ (min_val max_val : Option ℚ) (kwargs : Kwargs), ∃ v : Variable,
      Variable.make type_name min_val max_val kwargs = .ok v ∧
      v.variable_behavior = none ∧
      ∀ (σ : Type) (ops : OpticOps σ) (st : σ) (nv : ℚ),
        v.value ops st = .error (.invalidVariableType type_name) ∧
        v.update ops st nv = .error (.invalidVariableType type_name)) ∧
    (∀ tn ∈ (["radius", "conic", "thickness", "index", "asphere_coeff"] : List String),
      ∀ (min_val max_val : Option ℚ) (kwargs : Kwargs) (v : Variable),
        Variable.make tn min_val max_val kwargs = .ok v →
        ∀ (σ : Type) (ops : OpticOps σ) (st : σ) (nv : ℚ) (t : String),
          v.value ops st ≠ .error (.invalidVariableType t) ∧
          v.update ops st nv ≠ .error (.invalidVariableType t)) := by
  constructor
  · intro min_val max_val kwargs
    simp only [List.mem_cons, List.not_mem_nil, or_false, not_or] at h
    obtain ⟨h1, h2, h3, h4, h5⟩ := h
    have hg : get_variable_behavior type_name kwargs = .ok none := by
      unfold get_variable_behavior
      rw [if_neg h1, if_neg h2, if_neg h3, if_neg h4, if_neg h5]
    refine ⟨⟨type_name, min_val, max_val, kwargs, kwargs.extra, none⟩, ?_, rfl, ?_⟩
    · unfold Variable.make
      rw [hg]
    · intro σ ops st nv
      exact ⟨rfl, rfl⟩
  · intro tn htn min_val max_val kwargs v hv σ ops st nv t
    obtain ⟨hg, _, _, _, _, _⟩ := make_ok_elim tn min_val max_val kwargs v hv
    obtain ⟨b, hb⟩ := gvb_recognized_isSome tn htn kwargs v.variable_behavior hg
    exact value_update_not_invalid ops st v b hb nv t

theorem variable_invalid_type_deferred_witness :
    (∀ (min_val max_val : Option ℚ) (kwargs : Kwargs), ∃ v : Variable,
      Variable.make ("bogus_type") min_val max_val kwargs = .ok v ∧
      v.variable_behavior = none ∧
      ∀ (σ : Type) (ops : OpticOps σ) (st : σ) (nv : ℚ),
        v.value ops st = .error (.invalidVariableType ("bogus_type")) ∧
        v.update ops st nv = .error (.invalidVariableType ("bogus_type"))) ∧
    (∀ tn ∈ (["radius", "conic", "thickness", "index", "asphere_coeff"] : List String),
      ∀ (min_val max_val : Option ℚ) (kwargs : Kwargs) (v : Variable),
        Variable.make tn min_val max_val kwargs = .ok v →
        ∀ (σ : Type) (ops : OpticOps σ) (st : σ) (nv : ℚ) (t : String),
          v.value ops st ≠ .error (.invalidVariableType t) ∧
          v.update ops st nv ≠ .error (.invalidVariableType t)) :=
  variable_invalid_type_deferred ("bogus_type") (by decide)

/-- Claim C5: for every optical system satisfying the collaborator contract
(the radius setter stores exactly the given value at the given surface index
and the radii accessor reflects it), a `radius` variable with
`surface_number = s`, after `update(v)`, satisfies `value == v`, and the
optic's underlying radius accessor at `s` holds `v`; the update's resulting
state is exactly the one produced by the optic's own mutator
`set_radius` — the write never goes around it, since the state type is
abstract and reachable only through the `OpticOps` operations. -/
theorem radius_variable_roundtrip (σ : Type) (ops : OpticOps σ)
    (hset : ∀ (st : σ) (val : ℚ) (i : ℕ),
      ops.radii (ops.set_radius st val i) i = some val)
    (surface_number : ℕ) (min_val max_val : Option ℚ) (cn : Option ℕ)
    (wl : Option ℚ) (extra : List String) (st : σ) (new_value : ℚ) (v : Variable)
    (hv : Variable.make ("radius") min_val max_val
      ⟨some surface_number, cn, wl, extra⟩ = .ok v) :
    v.update ops st new_value = .ok (ops.set_radius st new_value surface_number) ∧
    v.value ops (ops.set_radius st new_value surface_number) = .ok new_value ∧
    ops.radii (ops.set_radius st new_value surface_number) surface_number
      = some new_value := by
  have hg : get_variable_behavior ("radius") ⟨some surface_number, cn, wl, extra⟩
      = .ok (some (.RadiusVariable surface_number)) := by
    simp [get_variable_behavior]
  obtain ⟨hgv, _, _, _, _, _⟩ :=
    make_ok_elim ("radius") min_val max_val ⟨some surface_number, cn, wl, extra⟩ v hv
  rw [hg] at hgv
  have hb : v.variable_behavior = some (.RadiusVariable surface_number) := by
    injection hgv with hgv2
    exact hgv2.symm
  refine ⟨?_, ?_, hset st new_value surface_number⟩
  · simp [Variable.update, hb, VariableBehavior.update_value]
  · simp [Variable.value, hb, VariableBehavior.get_value,
      hset st new_value surface_number]

theorem radius_variable_roundtrip_witness :
    Variable.update funOptic (fun _ => (0 : ℚ))
        ⟨"radius", none, none, ⟨some 2, none, none, []⟩, [],
          some (.RadiusVariable 2)⟩ 55 =
      .ok (funOptic.set_radius (fun _ => (0 : ℚ)) 55 2) ∧
    Variable.value funOptic (funOptic.set_radius (fun _ => (0 : ℚ)) 55 2)
        ⟨"radius", none, none, ⟨some 2, none, none, []⟩, [],
          some (.RadiusVariable 2)⟩ =
      .ok 55 ∧
    funOptic.radii (funOptic.set_radius (fun _ => (0 : ℚ)) 55 2) 2 = some 55 :=
  radius_variable_roundtrip (ℕ → ℚ) funOptic
    (fun st val i => by simp [funOptic, Function.update_same])
    2 none none none none [] (fun _ => (0 : ℚ)) 55
    ⟨"radius", none, none, ⟨some 2, none, none, []⟩, [],
      some (.RadiusVariable 2)⟩ rfl

/-- Claim C9: supplying keyword arguments outside the whitelist alongside the
parameters the type requires does not raise: construction completes, the
extra keys only produce warning diagnostics, and the resulting variable's
`value` and `update` still work (in particular they never raise
`InvalidVariableType`). -/
theorem unrecognized_kwargs_nonfatal :
    (∀ (sn : ℕ) (min_val max_val : Option ℚ) (extra : List String),
      ∃ v : Variable,
        Variable.make ("radius") min_val max_val ⟨some sn, none, none, extra⟩ = .ok v ∧
        v.warnings = extra ∧
        v.variable_behavior = some (.RadiusVariable sn) ∧
        ∀ (σ : Type) (ops : OpticOps σ) (st : σ) (nv : ℚ),
          (∃ st2, v.update ops st nv = .ok st2) ∧
          ∀ t, v.value ops st ≠ .error (.invalidVariableType t)) ∧
    (∀ (sn : ℕ) (min_val max_val : Option ℚ) (extra : List String),
      ∃ v : Variable,
        Variable.make ("conic") min_val max_val ⟨some sn, none, none, extra⟩ = .ok v ∧
        v.warnings = extra ∧
        v.variable_behavior = some (.ConicVariable sn) ∧
        ∀ (σ : Type) (ops : OpticOps σ) (st : σ) (nv : ℚ),
          (∃ st2, v.update ops st nv = .ok st2) ∧
          ∀ t, v.value ops st ≠ .error (.invalidVariableType t)) ∧
    (∀ (sn : ℕ) (min_val max_val : Option ℚ) (extra : List String),
      ∃ v : Variable,
        Variable.make ("thickness") min_val max_val ⟨some sn, none, none, extra⟩ = .ok v ∧
        v.warnings = extra ∧
        v.variable_behavior = some (.ThicknessVariable sn) ∧
        ∀ (σ : Type) (ops : OpticOps σ) (st : σ) (nv : ℚ),
          (∃ st2, v.update ops st nv = .ok st2) ∧
          ∀ t, v.value ops st ≠ .error (.invalidVariableType t)) ∧
    (∀ (sn : ℕ) (wl : ℚ) (min_val max_val : Option ℚ) (extra : List String),
      ∃ v : Variable,
        Variable.make ("index") min_val max_val ⟨some sn, none, some wl, extra⟩ = .ok v ∧
        v.warnings = extra ∧
        v.variable_behavior = some (.IndexVariable sn wl) ∧
        ∀ (σ : Type) (ops : OpticOps σ) (st : σ) (nv : ℚ),
          (∃ st2, v.update ops st nv = .ok st2) ∧
          ∀ t, v.value ops st ≠ .error (.invalidVariableType t)) ∧
    (∀ (sn cn : ℕ) (min_val max_val : Option ℚ) (extra : List String),
      ∃ v : Variable,
        Variable.make ("asphere_coeff") min_val max_val
          ⟨some sn, some cn, none, extra⟩ = .ok v ∧
        v.warnings = extra ∧
        v.variable_behavior = some (.AsphereCoeffVariable sn cn) ∧
        ∀ (σ : Type) (ops : OpticOps σ) (st : σ) (nv : ℚ),
          (∃ st2, v.update ops st nv = .ok st2) ∧
          ∀ t, v.value ops st ≠ .error (.invalidVariableType t)) := by
  refine ⟨?_, ?_, ?_, ?_, ?_⟩
  · intro sn min_val max_val extra
    refine ⟨⟨"radius", min_val, max_val, ⟨some sn, none, none, extra⟩, extra,
      some (.RadiusVariable sn)⟩, ?_, rfl, rfl, ?_⟩
    · simp [Variable.make, get_variable_behavior]
    · intro σ ops st nv
      exact ⟨⟨_, rfl⟩, fun t => (value_update_not_invalid ops st _ _ rfl nv t).1⟩
  · intro sn min_val max_val extra
    refine ⟨⟨"conic", min_val, max_val, ⟨some sn, none, none, extra⟩, extra,
      some (.ConicVariable sn)⟩, ?_, rfl, rfl, ?_⟩
    · simp [Variable.make, get_variable_behavior]
    · intro σ ops st nv
      exact ⟨⟨_, rfl⟩, fun t => (value_update_not_invalid ops st _ _ rfl nv t).1⟩
  · intro sn min_val max_val extra
    refine ⟨⟨"thickness", min_val, max_val, ⟨some sn, none, none, extra⟩, extra,
      some (.ThicknessVariable sn)⟩, ?_, rfl, rfl, ?_⟩
    · simp [Variable.make, get_variable_behavior]
    · intro σ ops st nv
      exact ⟨⟨_, rfl⟩, fun t => (value_update_not_invalid ops st _ _ rfl nv t).1⟩
  · intro sn wl min_val max_val extra
    refine ⟨⟨"index", min_val, max_val, ⟨some sn, none, some wl, extra⟩, extra,
      some (.IndexVariable sn wl)⟩, ?_, rfl, rfl, ?_⟩
    · simp [Variable.make, get_variable_behavior]
    · intro σ ops st nv
      exact ⟨⟨_, rfl⟩, fun t => (value_update_not_invalid ops st _ _ rfl nv t).1⟩
  · intro sn cn min_val max_val extra
    refine ⟨⟨"asphere_coeff", min_val, max_val, ⟨some sn, some cn, none, extra⟩, extra,
      some (.AsphereCoeffVariable sn cn)⟩, ?_, rfl, rfl, ?_⟩
    · simp [Variable.make, get_variable_behavior]
    · intro σ ops st nv
      exact ⟨⟨_, rfl⟩, fun t => (value_update_not_invalid ops st _ _ rfl nv t).1⟩

/-- Claim C10: `Variable.bounds` never raises: for every constructed
variable — including one whose type name is unrecognized and whose behavior
is therefore unset — it returns exactly the pair `(min_val, max_val)`
supplied at construction, with no dispatch through the behavior. -/
theorem variable_bounds_pair (type_name : String) (min_val max_val : Option ℚ)
    (kwargs : Kwargs) (v : Variable)
    (hv : Variable.make type_name min_val max_val kwargs = .ok v) :
    v.bounds = (min_val, max_val) := by
  obtain ⟨_, _, h1, h2, _, _⟩ := make_ok_elim type_name min_val max_val kwargs v hv
  rw [Variable.bounds, h1, h2]

/-- Claim C8: two `RandomDistribution` instances constructed with the same
seed produce identical `x` and `y` sequences for the same count; instances
with the seeds 0 and 1 produce different sequences at count 1.  The
difference is proved for every square-root map `sq` that is nonnegative and
strictly monotone on the nonnegatives and every cosine/sine pair satisfying
the Pythagorean identity — properties the real `sqrt`, `cos` and `sin`
possess. -/
theorem random_seed_determinism {K : Type} [LinearOrderedField K]
    (sq c s : ℚ → K)
    (pythag : ∀ t : ℚ, c t ^ 2 + s t ^ 2 = 1)
    (sq_nonneg : ∀ q : ℚ, 0 ≤ sq q)
    (sq_mono : ∀ a b : ℚ, 0 ≤ a → a < b → sq a < sq b)
    (seed1 seed2 : ℕ) (hseed : seed1 = seed2) (num_points : ℕ) :
    (random_x sq c (RandomDistribution.init seed1) num_points =
       random_x sq c (RandomDistribution.init seed2) num_points ∧
     random_y sq s (RandomDistribution.init seed1) num_points =
       random_y sq s (RandomDistribution.init seed2) num_points) ∧
    ¬(random_x sq c (RandomDistribution.init 0) 1 =
        random_x sq c (RandomDistribution.init 1) 1 ∧
      random_y sq s (RandomDistribution.init 0) 1 =
        random_y sq s (RandomDistribution.init 1) 1) := by
  constructor
  · subst hseed
    exact ⟨rfl, rfl⟩
  · rintro ⟨hx, hy⟩
    have hgen0 : (RandomDistribution.init 0).generate_polar 1 =
        [(default_rng 0 0, default_rng 0 1)] := by
      simp [RandomDistribution.generate_polar, RandomDistribution.init,
        List.range_succ]
    have hgen1 : (RandomDistribution.init 1).generate_polar 1 =
        [(default_rng 1 0, default_rng 1 1)] := by
      simp [RandomDistribution.generate_polar, RandomDistribution.init,
        List.range_succ]
    rw [random_x, random_x, hgen0, hgen1] at hx
    rw [random_y, random_y, hgen0, hgen1] at hy
    simp only [List.map_cons, List.map_nil, List.cons.injEq, and_true] at hx hy
    have ha : default_rng 0 0 = 2654435761 / 4294967296 := by
      norm_num [default_rng]
    have hb : default_rng 1 0 = 1013904226 / 4294967296 := by
      norm_num [default_rng]
    set t0 := default_rng 0 1 with ht0
    set t1 := default_rng 1 1 with ht1
    rw [ha, hb] at hx hy
    have hlt : sq (1013904226 / 4294967296) < sq (2654435761 / 4294967296) :=
      sq_mono _ _ (by norm_num) (by norm_num)
    have hnn : (0 : K) ≤ sq (1013904226 / 4294967296) := sq_nonneg _
    have hsq_eq : sq (2654435761 / 4294967296) ^ 2 =
        sq (1013904226 / 4294967296) ^ 2 := by
      have f1 : (sq (2654435761 / 4294967296) * c t0) ^ 2 =
          (sq (1013904226 / 4294967296) * c t1) ^ 2 := by rw [hx]
      have f2 : (sq (2654435761 / 4294967296) * s t0) ^ 2 =
          (sq (1013904226 / 4294967296) * s t1) ^ 2 := by rw [hy]
      calc sq (2654435761 / 4294967296) ^ 2
          = (sq (2654435761 / 4294967296) * c t0) ^ 2 +
            (sq (2654435761 / 4294967296) * s t0) ^ 2 := by
            linear_combination (-(sq (2654435761 / 4294967296) ^ 2)) * pythag t0
        _ = (sq (1013904226 / 4294967296) * c t1) ^ 2 +
            (sq (1013904226 / 4294967296) * s t1) ^ 2 := by rw [f1, f2]
        _ = sq (1013904226 / 4294967296) ^ 2 := by
            linear_combination (sq (1013904226 / 4294967296) ^ 2) * pythag t1
    nlinarith [hlt, hnn, hsq_eq]

theorem random_seed_determinism_witness :
    ((random_x (fun q => max q 0) (fun _ => (1 : ℚ)) (RandomDistribution.init 7) 2 =
        random_x (fun q => max q 0) (fun _ => (1 : ℚ)) (RandomDistribution.init 7) 2 ∧
      random_y (fun q => max q 0) (fun _ => (0 : ℚ)) (RandomDistribution.init 7) 2 =
        random_y (fun q => max q 0) (fun _ => (0 : ℚ)) (RandomDistribution.init 7) 2) ∧
    ¬(random_x (fun q => max q 0) (fun _ => (1 : ℚ)) (RandomDistribution.init 0) 1 =
        random_x (fun q => max q 0) (fun _ => (1 : ℚ)) (RandomDistribution.init 1) 1 ∧
      random_y (fun q => max q 0) (fun _ => (0 : ℚ)) (RandomDistribution.init 0) 1 =
        random_y (fun q => max q 0) (fun _ => (0 : ℚ)) (RandomDistribution.init 1) 1)) :=
  random_seed_determinism (fun q => max q 0) (fun _ => (1 : ℚ)) (fun _ => (0 : ℚ))
    (fun t => by norm_num)
    (fun q => le_max_right q 0)
    (fun a b ha hab => by
      show max a 0 < max b 0
      rw [max_eq_left ha, max_eq_left (le_of_lt (lt_of_le_of_lt ha hab))]
      exact hab)
    7 7 rfl 2

theorem variable_bounds_pair_witness :
    Variable.bounds
        ⟨"bogus_type", some 1, some 2, ⟨none, none, none, ["foo"]⟩, ["foo"], none⟩ =
      (some 1, some 2) :=
  variable_bounds_pair ("bogus_type") (some 1) (some 2) ⟨none, none, none, ["foo"]⟩
    ⟨"bogus_type", some 1, some 2, ⟨none, none, none, ["foo"]⟩, ["foo"], none⟩ rfl

end Optiland
